import Mathlib

/-!
Verification of the UniCode grade-tracker core: the data model
(Course → AcademicYear → Module → Assessment), the pure aggregation
engine (module / year / course grades, completion percentage), the
classification resolver, the course-creation default weight schedule,
and the remote-backed course tree store's mutation behaviour.

Numbers (grades, weights, credits) are modelled as rationals; JavaScript
Math.round is modelled as floor (x + 1/2), which agrees with it on all
the values arising here. Fallible persistence calls are modelled with
Except: an `.error` response is a thrown/failed apiRequest, an `.ok`
response carries the server's JSON reply.
-/

namespace UniCode

/-- Assessment record: id, name, weight, optional grade, completed flag. -/
structure Assessment where
  id : String
  name : String
  weight : ℚ
  grade : Option ℚ
  completed : Bool
deriving DecidableEq

/-- Module record: id, name, credit value, assessments, optional target. -/
structure Module where
  id : String
  name : String
  credits : ℚ
  assessments : List Assessment
  targetGrade : Option ℚ
deriving DecidableEq

/-- Academic-year record: id, label, 1-based ordinal, weight (percentage
contribution to the course aggregate), modules, optional target. -/
structure AcademicYear where
  id : String
  label : String
  yearNumber : Nat
  weight : ℚ
  modules : List Module
  targetGrade : Option ℚ
deriving DecidableEq

/-- Course record: id, institution name, course title, years, optional target. -/
structure Course where
  id : String
  universityName : String
  courseTitle : String
  years : List AcademicYear
  targetGrade : Option ℚ
  createdAt : String
deriving DecidableEq

/-- JavaScript Math.round: round half away from zero; on the nonnegative
values occurring here this is floor (x + 1/2). -/
def jsRound (x : ℚ) : ℤ := ⌊x + 1/2⌋

/-- getClassification: maps an optional percentage to a band string
("First", "2:1", "2:2", "Third", "Fail", "N/A"), inclusive lower bounds,
no rounding before comparison. -/
def getClassification (grade : Option ℚ) : String :=
  match grade with
  | none => "N/A"
  | some g =>
    if g ≥ 70 then "First"
    else if g ≥ 60 then "2:1"
    else if g ≥ 50 then "2:2"
    else if g ≥ 40 then "Third"
    else "Fail"

/-- calculateModuleGrade: filter to completed, graded assessments; null on
an empty set or zero total weight; otherwise
(Σ grade*weight/100 / Σ weight) * 100. -/
def calculateModuleGrade (m : Module) : Option ℚ :=
  let completedAssessments :=
    m.assessments.filter fun a => a.completed && a.grade.isSome
  if completedAssessments.length = 0 then none
  else
    let totalWeight := completedAssessments.foldl (fun sum a => sum + a.weight) 0
    if totalWeight = 0 then none
    else
      let weightedSum :=
        completedAssessments.foldl (fun sum a => sum + a.grade.getD 0 * a.weight / 100) 0
      some (weightedSum / totalWeight * 100)

/-- calculateYearGrade: pair each module's grade with its credits, keep the
non-null grades; null on an empty set or zero total credits; otherwise the
credit-weighted mean Σ grade*credits / Σ credits. -/
def calculateYearGrade (year : AcademicYear) : Option ℚ :=
  let modulesWithGrades :=
    (year.modules.map fun m => (calculateModuleGrade m, m.credits)).filter
      fun p => p.1.isSome
  if modulesWithGrades.length = 0 then none
  else
    let totalCredits := modulesWithGrades.foldl (fun sum p => sum + p.2) 0
    if totalCredits = 0 then none
    else
      let weightedSum := modulesWithGrades.foldl (fun sum p => sum + p.1.getD 0 * p.2) 0
      some (weightedSum / totalCredits)

/-- calculateOverallGrade: pair each year's grade with the year's weight,
keep the non-null grades; null on an empty set or zero total weight;
otherwise Σ grade*weight / Σ weight. -/
def calculateOverallGrade (course : Course) : Option ℚ :=
  let yearsWithGrades :=
    (course.years.map fun y => (calculateYearGrade y, y.weight)).filter
      fun p => p.1.isSome
  if yearsWithGrades.length = 0 then none
  else
    let totalWeight := yearsWithGrades.foldl (fun sum p => sum + p.2) 0
    if totalWeight = 0 then none
    else
      let weightedSum := yearsWithGrades.foldl (fun sum p => sum + p.1.getD 0 * p.2) 0
      some (weightedSum / totalWeight)

/-- getCompletionPercentage: count all assessments and the completed ones
over the whole tree with nested loops; 0 when there are none, otherwise
Math.round((completed / total) * 100). -/
def getCompletionPercentage (course : Course) : ℤ :=
  let counts :=
    course.years.foldl
      (fun acc y =>
        y.modules.foldl
          (fun acc m =>
            m.assessments.foldl
              (fun acc a => (acc.1 + 1, acc.2 + (if a.completed then 1 else 0)))
              acc)
          acc)
      ((0 : ℕ), (0 : ℕ))
  if counts.1 = 0 then 0
  else jsRound ((counts.2 : ℚ) / (counts.1 : ℚ) * 100)

/-- createCourse: POST /api/course. `numYears || 3` treats a zero/absent
count as 3; the default weight schedule is [0,40,60] for 3 years,
[0,20,30,50] for 4, and Math.round(100/n) for every year otherwise;
years are labelled "Year 1".. and returned ordered by yearNumber with
empty module lists. Entity ids are opaque strings generated by the store;
they are modelled here by index. -/
def createCourse (universityName courseTitle : String) (numYears : Nat) : Course :=
  let n := if numYears = 0 then 3 else numYears
  let weights : List ℚ :=
    if n = 3 then [0, 40, 60]
    else if n = 4 then [0, 20, 30, 50]
    else List.replicate n ((jsRound ((100 : ℚ) / (n : ℚ)) : ℤ) : ℚ)
  { id := "course",
    universityName := universityName,
    courseTitle := courseTitle,
    years := (List.range n).map fun i =>
      { id := "year-" ++ toString (i + 1),
        label := "Year " ++ toString (i + 1),
        yearNumber := i + 1,
        weight := weights.getD i 0,
        modules := [],
        targetGrade := none },
    targetGrade := none,
    createdAt := "" }

/-- The completed-and-graded assessments of a module: the filter used by
calculateModuleGrade. -/
def completedGraded (m : Module) : List Assessment :=
  m.assessments.filter fun a => a.completed && a.grade.isSome

/-- The modules of a year whose computed grade is non-null. -/
def gradedModules (year : AcademicYear) : List Module :=
  year.modules.filter fun m => (calculateModuleGrade m).isSome

/-- The years of a course whose computed grade is non-null. -/
def gradedYears (course : Course) : List AcademicYear :=
  course.years.filter fun y => (calculateYearGrade y).isSome

/-- All assessments of a course, in tree order. -/
def allAssessments (course : Course) : List Assessment :=
  course.years.flatMap fun y => y.modules.flatMap fun m => m.assessments

/-! ### Remote-backed course tree store

`RemoteState` pairs the persisted tree on the server (what GET /api/course
would return) with the in-memory React state held by CourseProvider. The
mutation operations mirror CourseContext.tsx: each awaits an apiRequest
and applies the change to local state only after the request returns; a
thrown request (`.error`) is caught, logged, and leaves state alone. -/

/-- Client-side state of the remote-backed store. -/
structure RemoteState where
  backend : Option Course
  course : Option Course
deriving DecidableEq

/-- fetchCourse: GET /api/course and store the server tree as local state. -/
def fetchCourse (st : RemoteState) : RemoteState :=
  { st with course := st.backend }

/-- removeYear from CourseContext: filters the year out of local state only;
no request to the persistence backend is issued (and the server exposes no
DELETE route for years), so the backend tree is untouched. -/
def removeYear (st : RemoteState) (yearId : String) : RemoteState :=
  match st.course with
  | none => st
  | some c =>
    { st with course := some { c with years := c.years.filter fun y => y.id != yearId } }

/-- createNewCourse: POST /api/course; on success replace local state with
the server's course, on failure log and leave state alone. -/
def createNewCourse (resp : Except Unit Course) (st : Option Course) : Option Course :=
  match resp with
  | .error _ => st
  | .ok data => some data

/-- setCourseInfo: PUT /api/course then update institution and title locally. -/
def setCourseInfo (resp : Except Unit Unit) (st : Option Course)
    (uni title : String) : Option Course :=
  match st with
  | none => st
  | some c =>
    match resp with
    | .error _ => st
    | .ok _ => some { c with universityName := uni, courseTitle := title }

/-- addYear: POST /api/years/:courseId/add then append the returned year. -/
def addYear (resp : Except Unit AcademicYear) (st : Option Course) : Option Course :=
  match st with
  | none => st
  | some c =>
    match resp with
    | .error _ => st
    | .ok year => some { c with years := c.years ++ [year] }

/-- updateYear: PUT /api/years/:yearId then apply the update locally.
The update payload is modelled as a function on the year record. -/
def updateYear (resp : Except Unit Unit) (st : Option Course) (yearId : String)
    (upd : AcademicYear → AcademicYear) : Option Course :=
  match st with
  | none => st
  | some c =>
    match resp with
    | .error _ => st
    | .ok _ => some { c with years := c.years.map fun y => if y.id == yearId then upd y else y }

/-- addModule: POST /api/years/:yearId/modules then append the returned module. -/
def addModule (resp : Except Unit Module) (st : Option Course) (yearId : String) : Option Course :=
  match st with
  | none => st
  | some c =>
    match resp with
    | .error _ => st
    | .ok m =>
      some { c with years := c.years.map fun y =>
        if y.id == yearId then { y with modules := y.modules ++ [m] } else y }

/-- updateModule: PUT /api/modules/:moduleId then apply the update locally. -/
def updateModule (resp : Except Unit Unit) (st : Option Course) (yearId moduleId : String)
    (upd : Module → Module) : Option Course :=
  match st with
  | none => st
  | some c =>
    match resp with
    | .error _ => st
    | .ok _ =>
      some { c with years := c.years.map fun y =>
        if y.id == yearId then
          { y with modules := y.modules.map fun m => if m.id == moduleId then upd m else m }
        else y }

/-- removeModule: DELETE /api/modules/:moduleId then filter it out locally. -/
def removeModule (resp : Except Unit Unit) (st : Option Course) (yearId moduleId : String) :
    Option Course :=
  match st with
  | none => st
  | some c =>
    match resp with
    | .error _ => st
    | .ok _ =>
      some { c with years := c.years.map fun y =>
        if y.id == yearId then { y with modules := y.modules.filter fun m => m.id != moduleId }
        else y }

/-- addAssessment: POST /api/modules/:moduleId/assessments then append the
returned assessment locally. -/
def addAssessment (resp : Except Unit Assessment) (st : Option Course)
    (yearId moduleId : String) : Option Course :=
  match st with
  | none => st
  | some c =>
    match resp with
    | .error _ => st
    | .ok a =>
      some { c with years := c.years.map fun y =>
        if y.id == yearId then
          { y with modules := y.modules.map fun m =>
            if m.id == moduleId then { m with assessments := m.assessments ++ [a] } else m }
        else y }

/-- updateAssessment: PUT /api/assessments/:assessmentId then apply locally. -/
def updateAssessment (resp : Except Unit Unit) (st : Option Course)
    (yearId moduleId assessmentId : String) (upd : Assessment → Assessment) : Option Course :=
  match st with
  | none => st
  | some c =>
    match resp with
    | .error _ => st
    | .ok _ =>
      some { c with years := c.years.map fun y =>
        if y.id == yearId then
          { y with modules := y.modules.map fun m =>
            if m.id == moduleId then
              { m with assessments := m.assessments.map fun a =>
                if a.id == assessmentId then upd a else a }
            else m }
        else y }

/-- removeAssessment: DELETE /api/assessments/:assessmentId then filter locally. -/
def removeAssessment (resp : Except Unit Unit) (st : Option Course)
    (yearId moduleId assessmentId : String) : Option Course :=
  match st with
  | none => st
  | some c =>
    match resp with
    | .error _ => st
    | .ok _ =>
      some { c with years := c.years.map fun y =>
        if y.id == yearId then
          { y with modules := y.modules.map fun m =>
            if m.id == moduleId then
              { m with assessments := m.assessments.filter fun a => a.id != assessmentId }
            else m }
        else y }

/-- setCourseTarget: PUT /api/course with the target, then set it locally. -/
def setCourseTarget (resp : Except Unit Unit) (st : Option Course)
    (target : Option ℚ) : Option Course :=
  match st with
  | none => st
  | some c =>
    match resp with
    | .error _ => st
    | .ok _ => some { c with targetGrade := target }

/-- resetCourse: DELETE /api/course then clear local state. -/
def resetCourse (resp : Except Unit Unit) (st : Option Course) : Option Course :=
  match resp with
  | .error _ => st
  | .ok _ => none

/-! ### Concrete fixtures used by witnesses -/

/-- Module with the single assessment {weight:100, grade:80, completed:true}. -/
def mSingle : Module :=
  { id := "m1", name := "M", credits := 20,
    assessments := [{ id := "a1", name := "A", weight := 100, grade := some 80, completed := true }],
    targetGrade := none }

/-- An uncompleted assessment that nevertheless carries a grade. -/
def aUncompleted : Assessment :=
  { id := "a9", name := "Draft", weight := 50, grade := some 55, completed := false }

/-- Module whose only assessment is uncompleted. -/
def mNoGraded : Module :=
  { id := "m2", name := "N", credits := 20,
    assessments := [aUncompleted], targetGrade := none }

/-- Module whose only completed, graded assessment has weight zero. -/
def mZeroWeight : Module :=
  { id := "m3", name := "Z", credits := 20,
    assessments := [{ id := "a3", name := "B", weight := 0, grade := some 90, completed := true }],
    targetGrade := none }

/-- Module with assessments {weight:50, grade:100} and {weight:50, grade:0}. -/
def mHalves : Module :=
  { id := "m4", name := "H", credits := 20,
    assessments :=
      [{ id := "a4", name := "C1", weight := 50, grade := some 100, completed := true },
       { id := "a5", name := "C2", weight := 50, grade := some 0, completed := true }],
    targetGrade := none }

/-- Module worth grade 80 with 20 credits. -/
def modA : Module :=
  { id := "mA", name := "A", credits := 20,
    assessments := [{ id := "aA", name := "x", weight := 100, grade := some 80, completed := true }],
    targetGrade := none }

/-- Module worth grade 60 with 10 credits. -/
def modB : Module :=
  { id := "mB", name := "B", credits := 10,
    assessments := [{ id := "aB", name := "y", weight := 100, grade := some 60, completed := true }],
    targetGrade := none }

/-- Year holding modA and modB. -/
def yrEx : AcademicYear :=
  { id := "yx", label := "Year 1", yearNumber := 1, weight := 40,
    modules := [modA, modB], targetGrade := none }

/-- Year with no modules. -/
def yrEmpty : AcademicYear :=
  { id := "ye", label := "Year 1", yearNumber := 1, weight := 40,
    modules := [], targetGrade := none }

/-- Course with no years. -/
def crsEmpty : Course :=
  { id := "ce", universityName := "U", courseTitle := "T",
    years := [], targetGrade := none, createdAt := "" }

/-- Year with one module holding one completed assessment, for the
removeYear scenario. -/
def yC4 : AcademicYear :=
  { id := "y1", label := "Year 1", yearNumber := 1, weight := 40,
    modules :=
      [{ id := "mc", name := "Maths", credits := 20,
         assessments :=
           [{ id := "ac", name := "Essay", weight := 100, grade := some 70, completed := true }],
         targetGrade := none }],
    targetGrade := none }

/-- Course holding yC4. -/
def cC4 : Course :=
  { id := "c1", universityName := "U", courseTitle := "T",
    years := [yC4], targetGrade := none, createdAt := "" }

/-- Loaded state: server and client both hold cC4. -/
def stC4 : RemoteState := { backend := some cC4, course := some cC4 }

/-! ### Helper lemmas -/

theorem foldl_add_eq {α : Type} (f : α → ℚ) (l : List α) (c : ℚ) :
    l.foldl (fun s a => s + f a) c = c + (l.map f).sum := by
  induction l generalizing c with
  | nil => simp
  | cons x xs ih => simp [ih]; ring

theorem sum_map_div_const {α : Type} (f : α → ℚ) (c : ℚ) (l : List α) :
    (l.map fun a => f a / c).sum = (l.map f).sum / c := by
  induction l with
  | nil => simp
  | cons x xs ih => simp [ih]; ring

theorem filter_map_comm {α β : Type} (f : α → β) (p : β → Bool) (l : List α) :
    (l.map f).filter p = (l.filter fun a => p (f a)).map f := by
  induction l with
  | nil => rfl
  | cons x xs ih => by_cases h : p (f x) = true <;> simp [List.filter_cons, h, ih]

/-- calculateModuleGrade, on a non-degenerate module, computes the two-step
normalized weighted sum over the completed-and-graded assessments. -/
theorem calculateModuleGrade_eq (m : Module)
    (h1 : completedGraded m ≠ [])
    (h2 : ((completedGraded m).map fun a => a.weight).sum ≠ 0) :
    calculateModuleGrade m =
      some ((((completedGraded m).map fun a => a.grade.getD 0 * a.weight / 100).sum
        / ((completedGraded m).map fun a => a.weight).sum) * 100) := by
  unfold calculateModuleGrade
  rw [show (m.assessments.filter fun a => a.completed && a.grade.isSome) = completedGraded m from rfl]
  simp only [foldl_add_eq, zero_add]
  rw [if_neg (by simpa [List.length_eq_zero] using h1), if_neg h2]

/-- calculateYearGrade, on a non-degenerate year, is the credit-weighted mean
over the modules with a non-null grade. -/
theorem calculateYearGrade_eq (year : AcademicYear)
    (h1 : gradedModules year ≠ [])
    (h2 : ((gradedModules year).map fun m => m.credits).sum ≠ 0) :
    calculateYearGrade year =
      some (((gradedModules year).map fun m => (calculateModuleGrade m).getD 0 * m.credits).sum
        / ((gradedModules year).map fun m => m.credits).sum) := by
  unfold calculateYearGrade
  rw [filter_map_comm (fun m => (calculateModuleGrade m, m.credits)) (fun p => p.1.isSome)]
  rw [show (year.modules.filter fun m => (calculateModuleGrade m).isSome) = gradedModules year from rfl]
  simp only [foldl_add_eq, zero_add, List.map_map, Function.comp_def]
  rw [if_neg (by simpa [List.length_eq_zero] using h1), if_neg h2]

/-- calculateModuleGrade is null when no assessment qualifies or the
qualifying weights sum to zero. -/
theorem calculateModuleGrade_none_of (m : Module)
    (h : completedGraded m = [] ∨ ((completedGraded m).map fun a => a.weight).sum = 0) :
    calculateModuleGrade m = none := by
  unfold calculateModuleGrade
  rw [show (m.assessments.filter fun a => a.completed && a.grade.isSome) = completedGraded m from rfl]
  simp only [foldl_add_eq, zero_add]
  rcases h with h | h
  · rw [if_pos (by simp [h])]
  · by_cases hlen : completedGraded m = []
    · rw [if_pos (by simp [hlen])]
    · rw [if_neg (by simpa [List.length_eq_zero] using hlen), if_pos h]

/-- calculateYearGrade is null when no module qualifies or the qualifying
credits sum to zero. -/
theorem calculateYearGrade_none_of (y : AcademicYear)
    (h : gradedModules y = [] ∨ ((gradedModules y).map fun m => m.credits).sum = 0) :
    calculateYearGrade y = none := by
  unfold calculateYearGrade
  rw [filter_map_comm (fun m => (calculateModuleGrade m, m.credits)) (fun p => p.1.isSome)]
  rw [show (y.modules.filter fun m => (calculateModuleGrade m).isSome) = gradedModules y from rfl]
  simp only [foldl_add_eq, zero_add, List.map_map, Function.comp_def]
  rcases h with h | h
  · rw [if_pos (by simp [h])]
  · by_cases hlen : gradedModules y = []
    · rw [if_pos (by simp [hlen])]
    · rw [if_neg (by simpa [List.length_eq_zero] using hlen), if_pos h]

/-- calculateOverallGrade is null when no year qualifies or the qualifying
weights sum to zero. -/
theorem calculateOverallGrade_none_of (c : Course)
    (h : gradedYears c = [] ∨ ((gradedYears c).map fun y => y.weight).sum = 0) :
    calculateOverallGrade c = none := by
  unfold calculateOverallGrade
  rw [filter_map_comm (fun y => (calculateYearGrade y, y.weight)) (fun p => p.1.isSome)]
  rw [show (c.years.filter fun y => (calculateYearGrade y).isSome) = gradedYears c from rfl]
  simp only [foldl_add_eq, zero_add, List.map_map, Function.comp_def]
  rcases h with h | h
  · rw [if_pos (by simp [h])]
  · by_cases hlen : gradedYears c = []
    · rw [if_pos (by simp [hlen])]
    · rw [if_neg (by simpa [List.length_eq_zero] using hlen), if_pos h]

theorem count_assessments (l : List Assessment) (acc : ℕ × ℕ) :
    l.foldl (fun acc a => (acc.1 + 1, acc.2 + (if a.completed then 1 else 0))) acc
      = (acc.1 + l.length, acc.2 + (l.filter fun a => a.completed).length) := by
  induction l generalizing acc with
  | nil => simp
  | cons x xs ih =>
    cases hx : x.completed <;>
      simp [ih, List.filter_cons, hx, Nat.add_assoc, Nat.add_comm 1]

theorem count_modules (ms : List Module) (acc : ℕ × ℕ) :
    ms.foldl
        (fun acc m =>
          m.assessments.foldl
            (fun acc a => (acc.1 + 1, acc.2 + (if a.completed then 1 else 0))) acc)
        acc
      = (acc.1 + (ms.map fun m => m.assessments.length).sum,
         acc.2 + (ms.map fun m => (m.assessments.filter fun a => a.completed).length).sum) := by
  induction ms generalizing acc with
  | nil => simp
  | cons m ms ih =>
    rw [List.foldl_cons, count_assessments, ih]
    simp [Nat.add_assoc]

theorem count_years (ys : List AcademicYear) (acc : ℕ × ℕ) :
    ys.foldl
        (fun acc y =>
          y.modules.foldl
            (fun acc m =>
              m.assessments.foldl
                (fun acc a => (acc.1 + 1, acc.2 + (if a.completed then 1 else 0))) acc)
            acc)
        acc
      = (acc.1 + (ys.map fun y => (y.modules.map fun m => m.assessments.length).sum).sum,
         acc.2 + (ys.map fun y =>
            (y.modules.map fun m => (m.assessments.filter fun a => a.completed).length).sum).sum) := by
  induction ys generalizing acc with
  | nil => simp
  | cons y ys ih =>
    rw [List.foldl_cons, count_modules, ih]
    simp [Nat.add_assoc]

theorem length_bind_eq {α β : Type} (f : α → List β) (l : List α) :
    (l.flatMap f).length = (l.map fun x => (f x).length).sum := by
  induction l with
  | nil => rfl
  | cons x xs ih => simp [ih]

theorem length_filter_bind_eq {α β : Type} (f : α → List β) (p : β → Bool) (l : List α) :
    ((l.flatMap f).filter p).length = (l.map fun x => ((f x).filter p).length).sum := by
  induction l with
  | nil => rfl
  | cons x xs ih => simp [List.filter_append, ih]

theorem allAssessments_length (course : Course) :
    (allAssessments course).length
      = (course.years.map fun y => (y.modules.map fun m => m.assessments.length).sum).sum := by
  unfold allAssessments
  rw [length_bind_eq]
  congr 1
  apply List.map_congr_left
  intro y _
  rw [length_bind_eq]

theorem allAssessments_filter_length (course : Course) :
    ((allAssessments course).filter fun a => a.completed).length
      = (course.years.map fun y =>
          (y.modules.map fun m => (m.assessments.filter fun a => a.completed).length).sum).sum := by
  unfold allAssessments
  rw [length_filter_bind_eq]
  congr 1
  apply List.map_congr_left
  intro y _
  rw [length_filter_bind_eq]

theorem getD_replicate {α : Type} (v d : α) :
    ∀ (n i : Nat), i < n → (List.replicate n v).getD i d = v := by
  intro n
  induction n with
  | zero => intro i h; omega
  | succ k ih =>
    intro i h
    cases i with
    | zero => rfl
    | succ j => exact ih j (by omega)

theorem range_map_getD_replicate {α : Type} (n : Nat) (v d : α) :
    (List.range n).map (fun i => (List.replicate n v).getD i d) = List.replicate n v := by
  apply List.ext_getElem
  · simp
  · intro i h1 h2
    simp only [List.getElem_map, List.getElem_range, List.getElem_replicate]
    exact getD_replicate v d n i (by simpa using h2)

/-- moduleGrade of the single-assessment module {weight:100, grade:80,
completed:true} is 80. -/
theorem mSingle_grade : calculateModuleGrade mSingle = some 80 := by
  norm_num [calculateModuleGrade, mSingle]

/-- moduleGrade of modA is 80. -/
theorem modA_grade : calculateModuleGrade modA = some 80 := by
  norm_num [calculateModuleGrade, modA]

/-- moduleGrade of modB is 60. -/
theorem modB_grade : calculateModuleGrade modB = some 60 := by
  norm_num [calculateModuleGrade, modB]

/-- The graded modules of yrEx are exactly modA and modB. -/
theorem yrEx_gradedModules : gradedModules yrEx = [modA, modB] := by
  simp [gradedModules, yrEx, List.filter_cons, modA_grade, modB_grade]

/-! ### Claim theorems -/

/-- Claim C1: calculateModuleGrade considers exactly the assessments with
completed = true and a non-null grade; when that set is non-empty and its
total weight is non-zero it returns
(Σ grade_i * weight_i / 100 / Σ weight_i) * 100 over that set. The witness
instantiates the single-assessment module {weight:100, grade:80,
completed:true}, which yields exactly 80. -/
theorem calculateModuleGrade_weighted_formula (m : Module)
    (h1 : completedGraded m ≠ [])
    (h2 : ((completedGraded m).map fun a => a.weight).sum ≠ 0) :
    calculateModuleGrade m =
      some ((((completedGraded m).map fun a => a.grade.getD 0 * a.weight / 100).sum
        / ((completedGraded m).map fun a => a.weight).sum) * 100) :=
  calculateModuleGrade_eq m h1 h2

/-- Claim C1 witness: the module with one assessment {weight:100, grade:80,
completed:true} computes grade 80. -/
theorem calculateModuleGrade_weighted_formula_witness :
    calculateModuleGrade mSingle = some 80 := by
  have h := calculateModuleGrade_weighted_formula mSingle
    (by norm_num [completedGraded, mSingle])
    (by norm_num [completedGraded, mSingle])
  rw [h]
  norm_num [completedGraded, mSingle]

/-- Claim C2: calculateYearGrade keeps the (grade, credits) pairs with a
non-null module grade and, when the kept set is non-empty with non-zero
total credits, returns the credit-weighted mean
Σ grade_i * credits_i / Σ credits_i; the year's own weight field plays no
role at this level. -/
theorem calculateYearGrade_credit_weighted (year : AcademicYear)
    (h1 : gradedModules year ≠ [])
    (h2 : ((gradedModules year).map fun m => m.credits).sum ≠ 0) :
    calculateYearGrade year =
      some (((gradedModules year).map fun m => (calculateModuleGrade m).getD 0 * m.credits).sum
        / ((gradedModules year).map fun m => m.credits).sum)
    ∧ ∀ w : ℚ, calculateYearGrade { year with weight := w } = calculateYearGrade year :=
  ⟨calculateYearGrade_eq year h1 h2, fun _ => rfl⟩

/-- Claim C2 witness: modules (grade 80, 20 credits) and (grade 60, 10
credits) give (80*20+60*10)/30 = 220/3 = 73.33…, and the year's weight
field does not affect the result. -/
theorem calculateYearGrade_credit_weighted_witness :
    calculateYearGrade yrEx = some (220/3)
    ∧ calculateYearGrade { yrEx with weight := 99 } = calculateYearGrade yrEx := by
  have h := calculateYearGrade_credit_weighted yrEx
    (by rw [yrEx_gradedModules]; simp)
    (by rw [yrEx_gradedModules]; norm_num [modA, modB])
  obtain ⟨h1, h2⟩ := h
  refine ⟨?_, h2 99⟩
  rw [h1, yrEx_gradedModules]
  simp only [List.map_cons, List.map_nil, List.sum_cons, List.sum_nil, modA_grade, modB_grade]
  norm_num [modA, modB]

/-- Claim C3: every aggregation function returns null — never an error and
never zero — when no child qualifies or the qualifying children's total
weight/credits is zero. The three functions are total Lean functions on the
tree, so in particular none of them can throw. -/
theorem aggregation_null_on_no_data :
    (∀ m : Module,
      completedGraded m = [] ∨ ((completedGraded m).map fun a => a.weight).sum = 0 →
        calculateModuleGrade m = none)
    ∧ (∀ y : AcademicYear,
      gradedModules y = [] ∨ ((gradedModules y).map fun m => m.credits).sum = 0 →
        calculateYearGrade y = none)
    ∧ (∀ c : Course,
      gradedYears c = [] ∨ ((gradedYears c).map fun y => y.weight).sum = 0 →
        calculateOverallGrade c = none) :=
  ⟨calculateModuleGrade_none_of, calculateYearGrade_none_of, calculateOverallGrade_none_of⟩

/-- Claim C3 witness: a module whose only assessment is uncompleted, a
module whose only graded assessment has weight 0, a year with no modules
and a course with no years all aggregate to null. -/
theorem aggregation_null_on_no_data_witness :
    calculateModuleGrade mNoGraded = none
    ∧ calculateModuleGrade mZeroWeight = none
    ∧ calculateYearGrade yrEmpty = none
    ∧ calculateOverallGrade crsEmpty = none := by
  refine ⟨?_, ?_, ?_, ?_⟩
  · exact aggregation_null_on_no_data.1 mNoGraded
      (Or.inl (by simp [completedGraded, mNoGraded, aUncompleted]))
  · exact aggregation_null_on_no_data.1 mZeroWeight
      (Or.inr (by norm_num [completedGraded, mZeroWeight]))
  · exact aggregation_null_on_no_data.2.1 yrEmpty
      (Or.inl (by simp [gradedModules, yrEmpty]))
  · exact aggregation_null_on_no_data.2.2 crsEmpty
      (Or.inl (by simp [gradedYears, crsEmpty]))

/-- Claim C4 (code bug): removeYear only filters the year out of the
in-memory state and never issues a delete to the persistence backend, so
the removed year — with its module and assessment — reappears in the next
fetchCourse result instead of being absent. -/
theorem removeYear_not_persisted :
    (removeYear stC4 "y1").course = some { cC4 with years := [] }
    ∧ (fetchCourse (removeYear stC4 "y1")).course = some cC4
    ∧ ((fetchCourse (removeYear stC4 "y1")).course.getD cC4).years = [yC4] :=
  ⟨rfl, rfl, rfl⟩

/-- Claim C5: for every structural mutation of the remote-backed store that
issues a persistence request, a failed request leaves the in-memory course
tree exactly as it was before the attempted mutation, and the operation is
not retried (each operation performs at most the one request). removeYear
issues no persistence request at all, so its request can never fail. -/
theorem failed_mutation_preserves_state (st : Option Course)
    (uni title yearId moduleId assessmentId : String)
    (updY : AcademicYear → AcademicYear) (updM : Module → Module)
    (updA : Assessment → Assessment) (target : Option ℚ) :
    createNewCourse (.error ()) st = st
    ∧ setCourseInfo (.error ()) st uni title = st
    ∧ addYear (.error ()) st = st
    ∧ updateYear (.error ()) st yearId updY = st
    ∧ addModule (.error ()) st yearId = st
    ∧ updateModule (.error ()) st yearId moduleId updM = st
    ∧ removeModule (.error ()) st yearId moduleId = st
    ∧ addAssessment (.error ()) st yearId moduleId = st
    ∧ updateAssessment (.error ()) st yearId moduleId assessmentId updA = st
    ∧ removeAssessment (.error ()) st yearId moduleId assessmentId = st
    ∧ setCourseTarget (.error ()) st target = st
    ∧ resetCourse (.error ()) st = st := by
  cases st <;>
    exact ⟨rfl, rfl, rfl, rfl, rfl, rfl, rfl, rfl, rfl, rfl, rfl, rfl⟩

/-- Claim C6: getClassification maps null to "N/A" and compares the raw
value against inclusive lower bounds 70/60/50/40 ("First" is the spec's
First, "2:1" UpperSecond, "2:2" LowerSecond). -/
theorem getClassification_thresholds :
    getClassification none = "N/A"
    ∧ ∀ p : ℚ,
        (70 ≤ p → getClassification (some p) = "First")
        ∧ (60 ≤ p → p < 70 → getClassification (some p) = "2:1")
        ∧ (50 ≤ p → p < 60 → getClassification (some p) = "2:2")
        ∧ (40 ≤ p → p < 50 → getClassification (some p) = "Third")
        ∧ (p < 40 → getClassification (some p) = "Fail") := by
  refine ⟨rfl, fun p => ?_⟩
  refine ⟨fun h => ?_, fun h1 h2 => ?_, fun h1 h2 => ?_, fun h1 h2 => ?_, fun h => ?_⟩ <;>
    · simp only [getClassification]
      split_ifs <;> first | rfl | linarith

/-- Claim C6 witness: classify(70) = First, classify(69.999) = UpperSecond
("2:1"), classify(null) = NotAvailable ("N/A"). -/
theorem getClassification_thresholds_witness :
    getClassification (some 70) = "First"
    ∧ getClassification (some (69999/1000)) = "2:1"
    ∧ getClassification none = "N/A" :=
  ⟨(getClassification_thresholds.2 70).1 (by norm_num),
   (getClassification_thresholds.2 (69999/1000)).2.1 (by norm_num) (by norm_num),
   getClassification_thresholds.1⟩

/-- Claim C7 counterexample: createCourse with yearCount = 0 does not attach
exactly 0 years — the code's `numYears || 3` treats 0 as absent and creates
3 years. -/
theorem createCourse_zero_years_counterexample :
    (createCourse "Uni" "Deg" 0).years.length ≠ 0 := by
  simp [createCourse]

/-- Claim C7 (amended to yearCount ≥ 1): createCourse attaches exactly
yearCount years, labelled "Year 1".."Year yearCount" with yearNumbers
1..yearCount in order, whose weights are [0,40,60] for 3 years,
[0,20,30,50] for 4, and round(100/yearCount) for every year otherwise. -/
theorem createCourse_default_years (u t : String) (n : Nat) (h : n ≠ 0) :
    (createCourse u t n).years.length = n
    ∧ ((createCourse u t n).years.map fun y => (y.label, y.yearNumber))
        = (List.range n).map (fun i => ("Year " ++ toString (i + 1), i + 1))
    ∧ ((createCourse u t n).years.map fun y => y.weight)
        = (if n = 3 then [0, 40, 60]
           else if n = 4 then [0, 20, 30, 50]
           else List.replicate n ((⌊(100 : ℚ) / (n : ℚ) + 1/2⌋ : ℤ) : ℚ)) := by
  unfold createCourse jsRound
  simp only [if_neg h]
  refine ⟨by simp, by simp [List.map_map, Function.comp_def], ?_⟩
  simp only [List.map_map, Function.comp_def]
  by_cases h3 : n = 3
  · subst h3; simp only [if_pos rfl]; rfl
  · rw [if_neg h3]
    by_cases h4 : n = 4
    · subst h4; simp only [if_pos rfl]; rfl
    · rw [if_neg h4]
      exact range_map_getD_replicate n _ 0

/-- Claim C7 witness: yearCount = 3 yields exactly the weights [0, 40, 60]
in order. -/
theorem createCourse_default_years_witness :
    (createCourse "u" "t" 3).years.length = 3
    ∧ ((createCourse "u" "t" 3).years.map fun y => y.weight) = [0, 40, 60] := by
  obtain ⟨h1, _, h3⟩ := createCourse_default_years "u" "t" 3 (by norm_num)
  rw [if_pos rfl] at h3
  exact ⟨h1, h3⟩

/-- Claim C8: appending an assessment with completed = false never changes
a module's computed grade. -/
theorem moduleGrade_invariant_uncompleted (m : Module) (a : Assessment)
    (h : a.completed = false) :
    calculateModuleGrade { m with assessments := m.assessments ++ [a] }
      = calculateModuleGrade m := by
  unfold calculateModuleGrade
  simp [List.filter_append, List.filter_cons, h]

/-- Claim C8 witness: appending the uncompleted (but graded) assessment
aUncompleted to mSingle leaves the module grade at 80. -/
theorem moduleGrade_invariant_uncompleted_witness :
    calculateModuleGrade { mSingle with assessments := mSingle.assessments ++ [aUncompleted] }
        = calculateModuleGrade mSingle
    ∧ calculateModuleGrade mSingle = some 80 :=
  ⟨moduleGrade_invariant_uncompleted mSingle aUncompleted rfl, mSingle_grade⟩

/-- Claim C9: getCompletionPercentage equals the completed-assessment count
over the total count across the whole tree, times 100, rounded to the
nearest integer (Math.round, i.e. floor(x + 1/2)); it is always an integer
in 0..100 and returns 0 — guarded before the division, so no division by
zero is ever evaluated — when the course has no assessments. -/
theorem completionPercentage_total_and_bounded (course : Course) :
    (getCompletionPercentage course =
      if (allAssessments course).length = 0 then 0
      else ⌊(((allAssessments course).filter fun a => a.completed).length : ℚ)
            / ((allAssessments course).length : ℚ) * 100 + 1/2⌋)
    ∧ 0 ≤ getCompletionPercentage course
    ∧ getCompletionPercentage course ≤ 100
    ∧ ((allAssessments course).length = 0 → getCompletionPercentage course = 0) := by
  have hrw : getCompletionPercentage course =
      if (allAssessments course).length = 0 then 0
      else ⌊(((allAssessments course).filter fun a => a.completed).length : ℚ)
            / ((allAssessments course).length : ℚ) * 100 + 1/2⌋ := by
    unfold getCompletionPercentage jsRound
    rw [count_years, allAssessments_length, allAssessments_filter_length]
    simp
  refine ⟨hrw, ?_, ?_, fun h => by rw [hrw, if_pos h]⟩
  · rw [hrw]
    by_cases h : (allAssessments course).length = 0
    · simp [h]
    · rw [if_neg h]
      have h1 : (0:ℚ) ≤ (((allAssessments course).filter fun a => a.completed).length : ℚ)
          / ((allAssessments course).length : ℚ) * 100 := by positivity
      rw [Int.le_floor]
      push_cast
      linarith
  · rw [hrw]
    by_cases h : (allAssessments course).length = 0
    · simp [h]
    · rw [if_neg h]
      have hTpos : (0:ℚ) < ((allAssessments course).length : ℚ) := by
        have := Nat.pos_of_ne_zero h
        exact_mod_cast this
      have hle : (((allAssessments course).filter fun a => a.completed).length : ℚ)
          ≤ ((allAssessments course).length : ℚ) := by
        exact_mod_cast List.length_filter_le _ _
      have hq : (((allAssessments course).filter fun a => a.completed).length : ℚ)
          / ((allAssessments course).length : ℚ) * 100 ≤ 100 := by
        rw [div_mul_eq_mul_div, div_le_iff₀ hTpos]
        nlinarith
      have hfl : (⌊(((allAssessments course).filter fun a => a.completed).length : ℚ)
            / ((allAssessments course).length : ℚ) * 100 + 1/2⌋ : ℤ) < 101 := by
        rw [Int.floor_lt]
        push_cast
        linarith
      omega

/-- Claim C9 witness: a course with zero assessments completes to 0, and on
the concrete course cC4 (one completed assessment out of one) the result is
within 0..100. -/
theorem completionPercentage_total_and_bounded_witness :
    getCompletionPercentage crsEmpty = 0
    ∧ 0 ≤ getCompletionPercentage cC4
    ∧ getCompletionPercentage cC4 ≤ 100 :=
  ⟨(completionPercentage_total_and_bounded crsEmpty).2.2.2 rfl,
   (completionPercentage_total_and_bounded cC4).2.1,
   (completionPercentage_total_and_bounded cC4).2.2.1⟩

/-- Claim C10: on any module whose completed-and-graded assessments carry a
non-zero total weight, the implemented two-step formula equals the plain
weighted mean Σ grade_i * weight_i / Σ weight_i over the same assessments:
the divide-by-100 and multiply-by-100 cancel exactly. -/
theorem moduleGrade_plain_weighted_mean (m : Module)
    (h : ((completedGraded m).map fun a => a.weight).sum ≠ 0) :
    calculateModuleGrade m =
      some (((completedGraded m).map fun a => a.grade.getD 0 * a.weight).sum
        / ((completedGraded m).map fun a => a.weight).sum) := by
  have h1 : completedGraded m ≠ [] := by
    intro he
    rw [he] at h
    simp at h
  rw [calculateModuleGrade_eq m h1 h]
  congr 1
  have hs : ((completedGraded m).map fun a => a.grade.getD 0 * a.weight / 100).sum
      = ((completedGraded m).map fun a => a.grade.getD 0 * a.weight).sum / 100 :=
    sum_map_div_const (fun a => a.grade.getD 0 * a.weight) 100 (completedGraded m)
  rw [hs]
  field_simp
  ring

/-- Claim C10 witness: the module with assessments {weight:50, grade:100}
and {weight:50, grade:0} has plain weighted mean (100*50 + 0*50)/100 = 50,
and calculateModuleGrade agrees. -/
theorem moduleGrade_plain_weighted_mean_witness :
    calculateModuleGrade mHalves = some 50 := by
  have h := moduleGrade_plain_weighted_mean mHalves
    (by norm_num [completedGraded, mHalves])
  rw [h]
  norm_num [completedGraded, mHalves]

end UniCode
